import Mathlib

/-!
# TDC-GP21 driver (`Firmware/scanning_fw/TDC/tdc_driver.c`)

A shallow embedding of the time-to-digital converter driver of the
OpenTOFLidar scanning firmware.  The driver talks to the chip through the
SPI collaborator (`spi_driver.h`) and to the timer through the delay
collaborator; neither is part of the translated file, so every call to them
is recorded in a transaction log and every value read from the chip is
supplied by a bus oracle.

Machine integers are natural numbers, with an explicit `% 2 ^ w` wherever
the C code converts to a `w`-bit unsigned type.
-/

namespace TDC

/-! ## Collaborators -/

/-- One call of a collaborator function, with the arguments the driver
passed to it. -/
inductive Txn where
  /-- The call `send_opcode_to_tdc(opcode)`. -/
  | send_opcode (opcode : Nat)
  /-- The call `tdc_write_register(opcode, value)`. -/
  | write_register (opcode : Nat) (value : Nat)
  /-- The call `tdc_read_n_bytes(n, opcode)`. -/
  | read_n_bytes (n : Nat) (opcode : Nat)
  /-- The call `tdc_read_register_upper(opcode)`. -/
  | read_register_upper (opcode : Nat)
  /-- The call `dwt_delay_ms(n)`. -/
  | delay_ms (n : Nat)
  /-- The call `dwt_delay_us(n)`. -/
  | delay_us (n : Nat)
  deriving DecidableEq, Repr

/-- The chip as the driver sees it: given the calls made so far, the last of
which is a read, the raw value that read hands back.  Every sequence of
answers is the behaviour of some bus, since the log only grows. -/
abbrev Bus := List Txn → Nat

/-- The result type `tdc_point_t` of one measurement cycle. -/
structure tdc_point_t where
  start_value : Nat
  width_value : Nat
  deriving DecidableEq, Repr

/-- The file-level variables of the driver, the shared `device_state_mask`
it declares, and the log of collaborator calls in the order they were made. -/
structure Dev where
  log : List Txn
  tmp_res0 : Nat
  tmp_res1 : Nat
  tdc_debug_status : Nat
  device_state_mask : Nat
  deriving DecidableEq, Repr

/-- Modelled from the spec: `send_opcode_to_tdc` of the SPI driver, whose body
is outside the translated file.  It writes one opcode byte in one framed bus
transaction and expects no response. -/
def send_opcode_to_tdc (opcode : Nat) (d : Dev) : Dev :=
  { d with log := d.log ++ [Txn.send_opcode opcode] }

/-- Modelled from the spec: `tdc_write_register` of the SPI driver, whose body
is outside the translated file.  It transmits the opcode and the 32-bit value
in one framed bus transaction and expects no response. -/
def tdc_write_register (opcode value : Nat) (d : Dev) : Dev :=
  { d with log := d.log ++ [Txn.write_register opcode value] }

/-- Modelled from the spec: `tdc_read_n_bytes` of the SPI driver, whose body is
outside the translated file.  It transmits the opcode and clocks in `n` bytes
in one framed bus transaction, returning them as an unsigned integer; the
driver holds the result in a `uint32_t`, the width given to the answer here. -/
def tdc_read_n_bytes (bus : Bus) (n opcode : Nat) (d : Dev) : Nat × Dev :=
  let log := d.log ++ [Txn.read_n_bytes n opcode]
  (bus log % 2 ^ 32, { d with log := log })

/-- Modelled from the spec: `tdc_read_register_upper` of the SPI driver, whose
body is outside the translated file.  It reads the upper half of a result
register in one framed bus transaction; the driver converts every answer to
`uint16_t` itself, so the answer is left as the bus gives it. -/
def tdc_read_register_upper (bus : Bus) (opcode : Nat) (d : Dev) : Nat × Dev :=
  let log := d.log ++ [Txn.read_register_upper opcode]
  (bus log, { d with log := log })

/-- Modelled from the spec: `dwt_delay_ms` of the delay collaborator, a
blocking wait of `n` milliseconds. -/
def dwt_delay_ms (n : Nat) (d : Dev) : Dev :=
  { d with log := d.log ++ [Txn.delay_ms n] }

/-- Modelled from the spec: `dwt_delay_us` of the delay collaborator, a
blocking wait of `n` microseconds. -/
def dwt_delay_us (n : Nat) (d : Dev) : Dev :=
  { d with log := d.log ++ [Txn.delay_us n] }

/-! ## Opcodes and field offsets (`#define`s of the driver) -/

def OPCODE_INIT : Nat := 0x70
def OPCODE_RESET : Nat := 0x50
def OPCODE_READ_REG : Nat := 0xB0
def OPCODE_WRITE_REG : Nat := 0x80
def OPCODE_START_TOF : Nat := 0x01

def REG0_ANZ_FIRE : Nat := 28
def REG0_DIV_FIRE : Nat := 24
def REG0_ANZ_PER_CALRES : Nat := 22
def REG0_DIV_CLKHS : Nat := 20
def REG0_START_CLKHS_1_0 : Nat := 18
def REG0_CALIBRATE : Nat := 13
def REG0_NO_CAL_AUTO : Nat := 12
def REG0_MESSB2 : Nat := 11
def REG0_NEG_STOP2 : Nat := 10
def REG0_NEG_STOP1 : Nat := 9
def REG0_NEG_START : Nat := 8

def REG1_HIT2 : Nat := 28
def REG1_HIT1 : Nat := 24
def REG1_EN_FAST_INIT : Nat := 23
def REG1_HITIN2 : Nat := 19
def REG1_HITIN1 : Nat := 16
def REG1_CURR32K : Nat := 15
def REG1_SEL_START_FIRE : Nat := 14
def REG1_SEL_TSTO2 : Nat := 11
def REG1_SEL_TSTO1 : Nat := 8

def REG2_EN_INT_2_0 : Nat := 29
def REG2_RFEDGE2 : Nat := 28
def REG2_RFEDGE1 : Nat := 27
def REG2_DELVAL1 : Nat := 8

def REG3_EN_ERR_VAL : Nat := 29
def REG3_SEL_TIMO_MB2 : Nat := 27
def REG3_DELVAL2 : Nat := 8

def REG4_DELVAL3 : Nat := 8

def REG5_CONF_FIRE : Nat := 29
def REG5_EN_STARTNOISE : Nat := 28
def REG5_DIS_PHASESHIFT : Nat := 27
def REG5_REPEAT_FIRE : Nat := 24
def REG5_PHFIRE : Nat := 8

def REG6_EN_ANALOG : Nat := 31
def REG6_DA_KORR : Nat := 25
def REG6_TW2 : Nat := 22
def REG6_FIREO_DEF : Nat := 14
def REG6_QUAD_RES : Nat := 13
def REG6_DOUBLE_RES : Nat := 12
def REG6_ANZ_FIRE_6_4 : Nat := 12

/-! ## C integer operations used by the driver -/

/-- The expression `(uint32_t)v << k`: a shift in 32-bit unsigned
arithmetic, which wraps. -/
def shl_u32 (v k : Nat) : Nat := ((v % 2 ^ 32) <<< k) % 2 ^ 32

/-- The expression `v << k` on `int` constants: the exact product, which is
what C computes whenever it is representable. -/
def shl_int (v k : Nat) : Nat := v <<< k

/-- The statement `reg |= rhs` on a `uint32_t` accumulator: the right-hand
side is converted to 32-bit unsigned before the OR. -/
def or_assign (reg rhs : Nat) : Nat := (reg ||| rhs % 2 ^ 32) % 2 ^ 32

/-! ## Register words -/

/-- The value of `reg1` at the write in `configure_reg1_start`. -/
def reg1_start_word : Nat :=
  let reg1 := 0
  let reg1 := or_assign reg1 (shl_u32 9 REG1_HIT1)
  let reg1 := or_assign reg1 (shl_int 1 REG1_HIT2)
  let reg1 := or_assign reg1 (shl_int 1 REG1_HITIN1)
  let reg1 := or_assign reg1 (shl_int 2 REG1_HITIN2)
  let reg1 := or_assign reg1 (shl_int 1 REG1_SEL_START_FIRE)
  let reg1 := or_assign reg1 (shl_int 7 REG1_SEL_TSTO2)
  let reg1 := or_assign reg1 (shl_int 3 REG1_SEL_TSTO1)
  reg1

/-- The value of `reg1` at the write in `configure_reg1_width`. -/
def reg1_width_word : Nat :=
  let reg1 := 0
  let reg1 := or_assign reg1 (shl_u32 0x0A REG1_HIT1)
  let reg1 := or_assign reg1 (shl_u32 9 REG1_HIT2)
  let reg1 := or_assign reg1 (shl_int 1 REG1_HITIN1)
  let reg1 := or_assign reg1 (shl_int 2 REG1_HITIN2)
  let reg1 := or_assign reg1 (shl_int 1 REG1_SEL_START_FIRE)
  let reg1 := or_assign reg1 (shl_int 7 REG1_SEL_TSTO2)
  let reg1 := or_assign reg1 (shl_int 3 REG1_SEL_TSTO1)
  reg1

/-- The value of `reg0` at the write in `tdc_configure`. -/
def reg0_word : Nat :=
  let reg0 := 0
  let reg0 := or_assign reg0 (shl_u32 1 REG0_ANZ_FIRE)
  let reg0 := or_assign reg0 (shl_int 1 REG0_START_CLKHS_1_0)
  let reg0 := or_assign reg0 (shl_int 0 REG0_CALIBRATE)
  let reg0 := or_assign reg0 (shl_int 1 REG0_NO_CAL_AUTO)
  let reg0 := or_assign reg0 (shl_int 7 REG0_DIV_FIRE)
  let reg0 := or_assign reg0 (shl_int 1 REG0_DIV_CLKHS)
  reg0

/-- The value of `reg2` at the write in `tdc_configure`. -/
def reg2_word : Nat :=
  let reg2 := 0
  let reg2 := or_assign reg2 (shl_u32 (1 + 4) REG2_EN_INT_2_0)
  let reg2 := or_assign reg2 (shl_int 1 REG2_RFEDGE2)
  reg2

/-- The value of `reg3` at the write in `tdc_configure`. -/
def reg3_word : Nat :=
  let reg3 := 0
  let reg3 := or_assign reg3 (shl_int 1 REG3_EN_ERR_VAL)
  reg3

/-- The value of `reg5` at the write in `tdc_configure`. -/
def reg5_word : Nat :=
  let reg5 := 0
  let reg5 := or_assign reg5 (shl_int 2 REG5_CONF_FIRE)
  let reg5 := or_assign reg5 (shl_int 1 REG5_DIS_PHASESHIFT)
  reg5

/-- The value of `reg6` at the write in `tdc_configure`. -/
def reg6_word : Nat :=
  let reg6 := 0
  let reg6 := or_assign reg6 (shl_int 1 REG6_FIREO_DEF)
  reg6

/-! ## Driver functions -/

/-- The function `configure_reg1_start`: ALU computes first STOP on channel 2
minus first STOP on channel 1. -/
def configure_reg1_start (d : Dev) : Dev :=
  tdc_write_register (OPCODE_WRITE_REG + 1) reg1_start_word d

/-- The function `configure_reg1_width`: ALU computes second STOP on
channel 2 minus first STOP on channel 2. -/
def configure_reg1_width (d : Dev) : Dev :=
  tdc_write_register (OPCODE_WRITE_REG + 1) reg1_width_word d

/-- The function `tdc_configure`. -/
def tdc_configure (d : Dev) : Dev :=
  let d := tdc_write_register (OPCODE_WRITE_REG + 0) reg0_word d
  let d := configure_reg1_start d
  let d := tdc_write_register (OPCODE_WRITE_REG + 2) reg2_word d
  let d := tdc_write_register (OPCODE_WRITE_REG + 3) reg3_word d
  let d := tdc_write_register (OPCODE_WRITE_REG + 5) reg5_word d
  let d := tdc_write_register (OPCODE_WRITE_REG + 6) reg6_word d
  d

/-- The function `tdc_send_reset`. -/
def tdc_send_reset (d : Dev) : Dev :=
  let d := send_opcode_to_tdc OPCODE_RESET d
  let d := dwt_delay_ms 100 d
  d

/-- The function `tdc_quick_check_status`: returns 1 if there was no
timeout. -/
def tdc_quick_check_status (bus : Bus) (d : Dev) : Nat × Dev :=
  let r := tdc_read_n_bytes bus 2 (OPCODE_READ_REG + 4) d
  let status := r.1 % 2 ^ 16
  let d := r.2
  if status &&& (1 <<< 9) ≠ 0 then (0, d) else (1, d)

/-- The function `tdc_start_pulse`. -/
def tdc_start_pulse (d : Dev) : Dev :=
  let d := configure_reg1_start d
  let d := send_opcode_to_tdc OPCODE_INIT d
  let d := send_opcode_to_tdc OPCODE_START_TOF d
  d

/-- The function `tdc_read_raw_value`. -/
def tdc_read_raw_value (bus : Bus) (d : Dev) : Nat × Dev :=
  let r := tdc_read_n_bytes bus 4 (OPCODE_READ_REG + 0) d
  let value := r.1 % 2 ^ 32
  ((value >>> 16) % 2 ^ 16, r.2)

/-- The function `tdc_read_three_registers`. -/
def tdc_read_three_registers (bus : Bus) (d : Dev) : tdc_point_t × Dev :=
  let r0 := tdc_read_register_upper bus (OPCODE_READ_REG + 0) d
  let d := { r0.2 with tmp_res0 := r0.1 % 2 ^ 16 }
  let d := configure_reg1_width d
  let d := dwt_delay_us 5 d
  let r1 := tdc_read_register_upper bus (OPCODE_READ_REG + 1) d
  let d := { r1.2 with tmp_res1 := r1.1 % 2 ^ 16 }
  let rs := tdc_quick_check_status bus d
  let tdc_result := rs.1
  let d := rs.2
  let d := if tdc_result = 0 then { d with tmp_res0 := 0xFFFF, tmp_res1 := 0xFFFF } else d
  ({ start_value := d.tmp_res0, width_value := d.tmp_res1 }, d)

/-- The function `tdc_test`.  The macro `TDC_STATE_INIT_FAIL_FLAG` comes from
a header outside the translated file and is a parameter; `device_state_mask`
is a `uint16_t`. -/
def tdc_test (TDC_STATE_INIT_FAIL_FLAG : Nat) (bus : Bus) (d : Dev) : Dev :=
  let r := tdc_read_n_bytes bus 1 (OPCODE_READ_REG + 5) d
  let test := r.1 % 2 ^ 32
  let d := r.2
  if test ≠ 0x55 then
    { d with device_state_mask := (d.device_state_mask ||| TDC_STATE_INIT_FAIL_FLAG) % 2 ^ 16 }
  else
    d

/-! ## The moments at which one call reads the bus -/

/-- The log at the first result read of `tdc_read_three_registers` started
in state `d`: everything logged before, then the read of result register 0. -/
def res0_query (d : Dev) : List Txn :=
  d.log ++ [Txn.read_register_upper 0xB0]

/-- The log at the second result read of `tdc_read_three_registers` started
in state `d`. -/
def res1_query (d : Dev) : List Txn :=
  res0_query d ++
    [Txn.write_register 0x81 0x9A117B00, Txn.delay_us 5, Txn.read_register_upper 0xB1]

/-- The log at the status read of `tdc_read_three_registers` started in
state `d`. -/
def status_query (d : Dev) : List Txn :=
  res1_query d ++ [Txn.read_n_bytes 2 0xB4]

/-- The state at power-up: nothing logged, every variable zero. -/
def power_up : Dev :=
  { log := [], tmp_res0 := 0, tmp_res1 := 0, tdc_debug_status := 0, device_state_mask := 0 }

/-- A bus that answers the n-th call of a session with the n-th entry of a
fixed table, and with zero once the table is exhausted. -/
def table_bus (answers : List Nat) : Bus :=
  fun log => answers.getD (log.length - 1) 0

/-! ## Reading a transaction log -/

/-- Whether a logged call is a register write. -/
def is_write : Txn → Bool
  | Txn.write_register _ _ => true
  | _ => false

/-- Whether a logged call is an upper-half read of a result register. -/
def is_result_read : Txn → Bool
  | Txn.read_register_upper _ => true
  | _ => false

/-- The opcodes of the register writes of a log, in the order they were made. -/
def write_opcodes : List Txn → List Nat
  | [] => []
  | Txn.write_register opcode _ :: rest => opcode :: write_opcodes rest
  | _ :: rest => write_opcodes rest

/-- The last word written with the given write opcode in a log, if any. -/
def last_written (opcode : Nat) (log : List Txn) : Option Nat :=
  log.foldl
    (fun acc t =>
      match t with
      | Txn.write_register op value => if op = opcode then some value else acc
      | _ => acc)
    none

/-- A bus on which the 1-byte read of register 5 (opcode 0xB5) hands back the
top byte of the last 32-bit word written to register 5 (opcode 0x85). -/
def reads_back_reg5 (bus : Bus) : Prop :=
  ∀ (log : List Txn) (value : Nat), last_written 0x85 log = some value →
    bus (log ++ [Txn.read_n_bytes 1 0xB5]) = (value % 2 ^ 32) >>> 24

/-- A bus that answers every read with the top byte of the last word written
to register 5, and with zero when register 5 was never written. -/
def reg5_echo_bus : Bus :=
  fun log =>
    match last_written 0x85 log with
    | some value => (value % 2 ^ 32) >>> 24
    | none => 0

/-! ## Sequences of driver operations -/

/-- The functions of the driver, as a caller can invoke them one after
another. -/
inductive Op where
  | tdc_configure
  | tdc_send_reset
  | tdc_quick_check_status
  | tdc_start_pulse
  | tdc_read_raw_value
  | tdc_read_three_registers
  | configure_reg1_start
  | configure_reg1_width
  | tdc_test
  deriving DecidableEq, Repr

/-- One call of a driver function; the value it returns is dropped, the
state it leaves is kept. -/
def step (TDC_STATE_INIT_FAIL_FLAG : Nat) (bus : Bus) (op : Op) (d : Dev) : Dev :=
  match op with
  | Op.tdc_configure => tdc_configure d
  | Op.tdc_send_reset => tdc_send_reset d
  | Op.tdc_quick_check_status => (tdc_quick_check_status bus d).2
  | Op.tdc_start_pulse => tdc_start_pulse d
  | Op.tdc_read_raw_value => (tdc_read_raw_value bus d).2
  | Op.tdc_read_three_registers => (tdc_read_three_registers bus d).2
  | Op.configure_reg1_start => configure_reg1_start d
  | Op.configure_reg1_width => configure_reg1_width d
  | Op.tdc_test => tdc_test TDC_STATE_INIT_FAIL_FLAG bus d

/-- A finite sequence of calls of driver functions, made in order on one bus. -/
def run (TDC_STATE_INIT_FAIL_FLAG : Nat) (bus : Bus) : List Op → Dev → Dev
  | [], d => d
  | op :: rest, d =>
      run TDC_STATE_INIT_FAIL_FLAG bus rest (step TDC_STATE_INIT_FAIL_FLAG bus op d)

/-- Every START opcode of a log is immediately preceded by the INIT opcode,
and the most recent register write before that INIT is the write of the
start-mode word to register 1. -/
def fresh_triggers (log : List Txn) : Prop :=
  ∀ pre post, log = pre ++ Txn.send_opcode 0x01 :: post →
    ∃ before, pre = before ++ [Txn.send_opcode 0x70] ∧
      (before.filter is_write).getLast? = some (Txn.write_register 0x81 reg1_start_word)

/-- Whether the opcode byte of a logged call belongs to the opcode set of
the chip: a command is INIT, RESET or START_TOF, a write is 0x80 + i and a
read is 0xB0 + i with register index i in 0..6.  Delays carry no opcode. -/
def opcode_in_set : Txn → Bool
  | Txn.send_opcode op => op = 0x70 || op = 0x50 || op = 0x01
  | Txn.write_register op _ => (List.range 7).any (fun i => op = 0x80 + i)
  | Txn.read_n_bytes _ op => (List.range 7).any (fun i => op = 0xB0 + i)
  | Txn.read_register_upper op => (List.range 7).any (fun i => op = 0xB0 + i)
  | Txn.delay_ms _ => true
  | Txn.delay_us _ => true

/-- The opcode byte of a logged call, if it carries one. -/
def opcode_of : Txn → Option Nat
  | Txn.send_opcode op => some op
  | Txn.write_register op _ => some op
  | Txn.read_n_bytes _ op => some op
  | Txn.read_register_upper op => some op
  | Txn.delay_ms _ => none
  | Txn.delay_us _ => none

/-- A bus that answers every read with 0x0200: status bit 9 set, and result
reads that are not 0xFFFF. -/
def timeout_bus : Bus :=
  fun _ => 0x0200

/-- A bus that answers the status read (the only `tdc_read_n_bytes`) with 0
and every result read with 0xFFFF. -/
def full_scale_bus : Bus :=
  fun log =>
    match log.getLast? with
    | some (Txn.read_n_bytes _ _) => 0
    | _ => 0xFFFF

/-! ## The register words as tables of fields -/

/-- One `reg |= value << offset` statement of the driver: whether the
constant is cast to `uint32_t` before the shift, the constant, the offset
macro, and the width of the field in bits.  The width is the one the comment
on the offset macro declares (`[0-15]` is 4 bits, `[0-7]` is 3, `[0-3]` is 2)
and 1 for the single-bit switches. -/
structure Field where
  cast : Bool
  value : Nat
  offset : Nat
  width : Nat
  deriving DecidableEq, Repr

/-- The value C computes for the shift of one statement. -/
def Field.shifted (f : Field) : Nat :=
  if f.cast then shl_u32 f.value f.offset else shl_int f.value f.offset

/-- A `uint32_t` accumulator that starts at 0 and takes the statements of a
table in order. -/
def build_word (fs : List Field) : Nat :=
  fs.foldl (fun reg f => or_assign reg f.shifted) 0

/-- The statements on `reg0` in `tdc_configure`, in source order. -/
def reg0_fields : List Field :=
  [ { cast := true, value := 1, offset := REG0_ANZ_FIRE, width := 4 },
    { cast := false, value := 1, offset := REG0_START_CLKHS_1_0, width := 2 },
    { cast := false, value := 0, offset := REG0_CALIBRATE, width := 1 },
    { cast := false, value := 1, offset := REG0_NO_CAL_AUTO, width := 1 },
    { cast := false, value := 7, offset := REG0_DIV_FIRE, width := 4 },
    { cast := false, value := 1, offset := REG0_DIV_CLKHS, width := 2 } ]

/-- The statements on `reg1` in `configure_reg1_start`, in source order. -/
def reg1_start_fields : List Field :=
  [ { cast := true, value := 9, offset := REG1_HIT1, width := 4 },
    { cast := false, value := 1, offset := REG1_HIT2, width := 4 },
    { cast := false, value := 1, offset := REG1_HITIN1, width := 3 },
    { cast := false, value := 2, offset := REG1_HITIN2, width := 3 },
    { cast := false, value := 1, offset := REG1_SEL_START_FIRE, width := 1 },
    { cast := false, value := 7, offset := REG1_SEL_TSTO2, width := 3 },
    { cast := false, value := 3, offset := REG1_SEL_TSTO1, width := 3 } ]

/-- The statements on `reg1` in `configure_reg1_width`, in source order. -/
def reg1_width_fields : List Field :=
  [ { cast := true, value := 0x0A, offset := REG1_HIT1, width := 4 },
    { cast := true, value := 9, offset := REG1_HIT2, width := 4 },
    { cast := false, value := 1, offset := REG1_HITIN1, width := 3 },
    { cast := false, value := 2, offset := REG1_HITIN2, width := 3 },
    { cast := false, value := 1, offset := REG1_SEL_START_FIRE, width := 1 },
    { cast := false, value := 7, offset := REG1_SEL_TSTO2, width := 3 },
    { cast := false, value := 3, offset := REG1_SEL_TSTO1, width := 3 } ]

/-- The statements on `reg2` in `tdc_configure`, in source order. -/
def reg2_fields : List Field :=
  [ { cast := true, value := 1 + 4, offset := REG2_EN_INT_2_0, width := 3 },
    { cast := false, value := 1, offset := REG2_RFEDGE2, width := 1 } ]

/-- The statement on `reg3` in `tdc_configure`. -/
def reg3_fields : List Field :=
  [ { cast := false, value := 1, offset := REG3_EN_ERR_VAL, width := 1 } ]

/-- The statements on `reg5` in `tdc_configure`, in source order. -/
def reg5_fields : List Field :=
  [ { cast := false, value := 2, offset := REG5_CONF_FIRE, width := 3 },
    { cast := false, value := 1, offset := REG5_DIS_PHASESHIFT, width := 1 } ]

/-- The statement on `reg6` in `tdc_configure`. -/
def reg6_fields : List Field :=
  [ { cast := false, value := 1, offset := REG6_FIREO_DEF, width := 1 } ]

/-- Every register word the driver builds, next to the table of the
statements that build it. -/
def register_words : List (Nat × List Field) :=
  [ (reg0_word, reg0_fields),
    (reg1_start_word, reg1_start_fields),
    (reg1_width_word, reg1_width_fields),
    (reg2_word, reg2_fields),
    (reg3_word, reg3_fields),
    (reg5_word, reg5_fields),
    (reg6_word, reg6_fields) ]

/-! ## Lemmas on the C operations -/

theorem status_bit_test (x : Nat) :
    ((x % 2 ^ 32 % 2 ^ 16) &&& (1 <<< 9) ≠ 0) ↔ x.testBit 9 = true := by
  have h9 : (1 : Nat) <<< 9 = 2 ^ 9 := by decide
  rw [h9, Nat.and_two_pow]
  simp only [Nat.testBit_mod_two_pow]
  cases h : x.testBit 9 <;> simp

theorem reg1_start_word_eq : reg1_start_word = 0x19117B00 := by decide

theorem reg1_width_word_eq : reg1_width_word = 0x9A117B00 := by decide

theorem quick_check_eq (bus : Bus) (d : Dev) :
    tdc_quick_check_status bus d =
      (if (bus (d.log ++ [Txn.read_n_bytes 2 0xB4])).testBit 9 = true then 0 else 1,
        { d with log := d.log ++ [Txn.read_n_bytes 2 0xB4] }) := by
  have hb := status_bit_test (bus (d.log ++ [Txn.read_n_bytes 2 0xB4]))
  unfold tdc_quick_check_status tdc_read_n_bytes
  have ho : OPCODE_READ_REG + 4 = 0xB4 := by decide
  simp only [ho]
  by_cases h : (bus (d.log ++ [Txn.read_n_bytes 2 0xB4])).testBit 9 = true
  · rw [if_pos (hb.mpr h), if_pos h]
  · rw [if_neg (fun hc => h (hb.mp hc)), if_neg h]

theorem read_three_eq (bus : Bus) (d : Dev) :
    tdc_read_three_registers bus d =
      if (bus (status_query d)).testBit 9 = true then
        ({ start_value := 0xFFFF, width_value := 0xFFFF },
          { d with log := status_query d, tmp_res0 := 0xFFFF, tmp_res1 := 0xFFFF })
      else
        ({ start_value := bus (res0_query d) % 2 ^ 16,
           width_value := bus (res1_query d) % 2 ^ 16 },
          { d with log := status_query d,
                   tmp_res0 := bus (res0_query d) % 2 ^ 16,
                   tmp_res1 := bus (res1_query d) % 2 ^ 16 }) := by
  have hw := reg1_width_word_eq
  have h0 : OPCODE_READ_REG + 0 = 0xB0 := by decide
  have h1 : OPCODE_READ_REG + 1 = 0xB1 := by decide
  have h2 : OPCODE_WRITE_REG + 1 = 0x81 := by decide
  unfold tdc_read_three_registers
  simp only [quick_check_eq, tdc_read_register_upper, configure_reg1_width,
    tdc_write_register, dwt_delay_us, hw, h0, h1, h2]
  have hq : status_query d = d.log ++ [Txn.read_register_upper 0xB0] ++
      [Txn.write_register 0x81 0x9A117B00] ++ [Txn.delay_us 5] ++
      [Txn.read_register_upper 0xB1] ++ [Txn.read_n_bytes 2 0xB4] := by
    simp [status_query, res1_query, res0_query]
  have hq1 : res1_query d = d.log ++ [Txn.read_register_upper 0xB0] ++
      [Txn.write_register 0x81 0x9A117B00] ++ [Txn.delay_us 5] ++
      [Txn.read_register_upper 0xB1] := by
    simp [res1_query, res0_query]
  have hq0 : res0_query d = d.log ++ [Txn.read_register_upper 0xB0] := rfl
  rw [hq, hq1, hq0]
  split_ifs with h <;> simp_all

theorem start_pulse_eq (d : Dev) :
    tdc_start_pulse d =
      { d with log := d.log ++ [Txn.write_register 0x81 reg1_start_word,
                                Txn.send_opcode 0x70, Txn.send_opcode 0x01] } := by
  simp [tdc_start_pulse, configure_reg1_start, tdc_write_register, send_opcode_to_tdc,
    OPCODE_WRITE_REG, OPCODE_INIT, OPCODE_START_TOF]

/-! ## The measurement cycle -/

/-- C1. Timeout sentinel: whatever the two result reads hand back, when the
16-bit status read from register 4 has bit 9 set, `tdc_read_three_registers`
returns the point with `start_value = 0xFFFF` and `width_value = 0xFFFF`. -/
theorem timeout_sentinel (bus : Bus) (d : Dev) (status : Nat)
    (hstatus : bus (status_query d) % 2 ^ 16 = status)
    (hbit : status.testBit 9 = true) :
    (tdc_read_three_registers bus d).1 = { start_value := 0xFFFF, width_value := 0xFFFF } := by
  subst hstatus
  rw [Nat.testBit_mod_two_pow] at hbit
  have h9 : (bus (status_query d)).testBit 9 = true := by simpa using hbit
  rw [read_three_eq, if_pos h9]

/-- Witness for C1: result reads 0x1234 and 0x5678, status 0x0200. -/
theorem timeout_sentinel_witness :
    table_bus [0x1234, 0, 0, 0x5678, 0x0200] (status_query power_up) % 2 ^ 16 = 0x0200 ∧
    Nat.testBit 0x0200 9 = true ∧
    (tdc_read_three_registers (table_bus [0x1234, 0, 0, 0x5678, 0x0200]) power_up).1 =
      { start_value := 0xFFFF, width_value := 0xFFFF } :=
  ⟨by decide, by decide,
    timeout_sentinel (table_bus [0x1234, 0, 0, 0x5678, 0x0200]) power_up 0x0200
      (by decide) (by decide)⟩

/-- C2. No-timeout pass-through: when the 16-bit status has bit 9 clear and
the upper-half reads of result registers 0 and 1 hand back `s` and `w`,
`tdc_read_three_registers` returns `start_value = s mod 2^16` (first read)
and `width_value = w mod 2^16` (second read); reads 0x1234 and 0x5678 give
exactly the point (0x1234, 0x5678). -/
theorem no_timeout_pass_through (bus : Bus) (d : Dev) (s w status : Nat)
    (hs : bus (res0_query d) = s) (hw : bus (res1_query d) = w)
    (hstatus : bus (status_query d) % 2 ^ 16 = status)
    (hbit : status.testBit 9 = false) :
    (tdc_read_three_registers bus d).1 =
        { start_value := s % 2 ^ 16, width_value := w % 2 ^ 16 } ∧
    (s = 0x1234 → w = 0x5678 →
      (tdc_read_three_registers bus d).1 =
        { start_value := 0x1234, width_value := 0x5678 }) := by
  subst hstatus hs hw
  rw [Nat.testBit_mod_two_pow] at hbit
  have h9 : ¬ (bus (status_query d)).testBit 9 = true := by simpa using hbit
  rw [read_three_eq, if_neg h9]
  refine ⟨rfl, ?_⟩
  intro h0 h1
  rw [h0, h1]
  rfl

/-- Witness for C2: result reads 0x1234 and 0x5678, status 0. -/
theorem no_timeout_pass_through_witness :
    table_bus [0x1234, 0, 0, 0x5678, 0] (res0_query power_up) = 0x1234 ∧
    table_bus [0x1234, 0, 0, 0x5678, 0] (res1_query power_up) = 0x5678 ∧
    Nat.testBit 0 9 = false ∧
    (tdc_read_three_registers (table_bus [0x1234, 0, 0, 0x5678, 0]) power_up).1 =
      { start_value := 0x1234, width_value := 0x5678 } :=
  ⟨by decide, by decide, by decide,
    (no_timeout_pass_through (table_bus [0x1234, 0, 0, 0x5678, 0]) power_up 0x1234 0x5678 0
      (by decide) (by decide) (by decide) (by decide)).2 rfl rfl⟩

/-- C3. Cycle transaction order: for every bus, `tdc_start_pulse` followed by
`tdc_read_three_registers` appends to the log exactly: write of the
start-mode word (opcode 0x81), INIT 0x70, START 0x01, upper-half read 0xB0,
write of the width-mode word (opcode 0x81), a 5 microsecond delay, upper-half
read 0xB1, 2-byte read 0xB4.  Hence one INIT immediately followed by one
START, exactly two register writes, both to register 1, start then width, one
before each result read, and no write to register 0, 2, 3, 5 or 6. -/
theorem cycle_transaction_order (bus : Bus) (d : Dev) :
    (tdc_read_three_registers bus (tdc_start_pulse d)).2.log =
      d.log ++ [Txn.write_register 0x81 reg1_start_word,
                Txn.send_opcode 0x70,
                Txn.send_opcode 0x01,
                Txn.read_register_upper 0xB0,
                Txn.write_register 0x81 reg1_width_word,
                Txn.delay_us 5,
                Txn.read_register_upper 0xB1,
                Txn.read_n_bytes 2 0xB4] ∧
    (((tdc_read_three_registers bus (tdc_start_pulse d)).2.log.drop d.log.length).count
        (Txn.send_opcode 0x70) = 1 ∧
     ((tdc_read_three_registers bus (tdc_start_pulse d)).2.log.drop d.log.length).count
        (Txn.send_opcode 0x01) = 1 ∧
     ((tdc_read_three_registers bus (tdc_start_pulse d)).2.log.drop d.log.length)[1]? =
        some (Txn.send_opcode 0x70) ∧
     ((tdc_read_three_registers bus (tdc_start_pulse d)).2.log.drop d.log.length)[2]? =
        some (Txn.send_opcode 0x01)) ∧
    ((tdc_read_three_registers bus (tdc_start_pulse d)).2.log.drop d.log.length).filter is_write =
      [Txn.write_register 0x81 reg1_start_word, Txn.write_register 0x81 reg1_width_word] ∧
    ((tdc_read_three_registers bus (tdc_start_pulse d)).2.log.drop d.log.length).filter
        (fun t => is_write t || is_result_read t) =
      [Txn.write_register 0x81 reg1_start_word, Txn.read_register_upper 0xB0,
       Txn.write_register 0x81 reg1_width_word, Txn.read_register_upper 0xB1] ∧
    (∀ i ∈ [0, 2, 3, 5, 6], 0x80 + i ∉
      write_opcodes ((tdc_read_three_registers bus (tdc_start_pulse d)).2.log.drop d.log.length)) := by
  have hlog : (tdc_read_three_registers bus (tdc_start_pulse d)).2.log =
      d.log ++ [Txn.write_register 0x81 reg1_start_word,
                Txn.send_opcode 0x70,
                Txn.send_opcode 0x01,
                Txn.read_register_upper 0xB0,
                Txn.write_register 0x81 reg1_width_word,
                Txn.delay_us 5,
                Txn.read_register_upper 0xB1,
                Txn.read_n_bytes 2 0xB4] := by
    rw [read_three_eq, start_pulse_eq, reg1_width_word_eq]
    split_ifs <;> simp [status_query, res1_query, res0_query]
  rw [hlog, List.drop_left, reg1_start_word_eq, reg1_width_word_eq]
  refine ⟨rfl, ⟨by decide, by decide, by decide, by decide⟩, by decide, by decide, by decide⟩

/-! ## The two ALU modes -/

/-- C4. The word `configure_reg1_start` writes to register 1 and the word
`configure_reg1_width` writes there agree on every bit 0..23 and differ in
both the HIT1 field (bits 24..27) and the HIT2 field (bits 28..31); their XOR
is non-zero and lies inside the mask 0xFF000000. -/
theorem reg1_modes_differ_only_in_hit (d : Dev) :
    configure_reg1_start d =
      { d with log := d.log ++ [Txn.write_register 0x81 reg1_start_word] } ∧
    configure_reg1_width d =
      { d with log := d.log ++ [Txn.write_register 0x81 reg1_width_word] } ∧
    (∀ i, i < 24 → reg1_start_word.testBit i = reg1_width_word.testBit i) ∧
    reg1_start_word % 2 ^ 24 = reg1_width_word % 2 ^ 24 ∧
    (reg1_start_word >>> REG1_HIT1) % 2 ^ 4 ≠ (reg1_width_word >>> REG1_HIT1) % 2 ^ 4 ∧
    (reg1_start_word >>> REG1_HIT2) % 2 ^ 4 ≠ (reg1_width_word >>> REG1_HIT2) % 2 ^ 4 ∧
    reg1_start_word ^^^ reg1_width_word ≠ 0 ∧
    (reg1_start_word ^^^ reg1_width_word) &&& 0xFF000000 =
      reg1_start_word ^^^ reg1_width_word ∧
    (reg1_start_word ^^^ reg1_width_word) &&& 0x00FFFFFF = 0 := by
  refine ⟨rfl, rfl, ?_, ?_, ?_, ?_, ?_, ?_, ?_⟩
  · rw [reg1_start_word_eq, reg1_width_word_eq]
    decide
  all_goals rw [reg1_start_word_eq, reg1_width_word_eq]; decide

/-! ## Status check -/

/-- C5. Status check: `tdc_quick_check_status` returns 0 exactly when bit 9
of the 16-bit status read from register 4 is set and 1 otherwise; two calls
whose statuses agree on bit 9 return the same value; the call makes one bus
transaction, a 2-byte read with opcode 0xB4, and changes nothing else. -/
theorem quick_check_status_spec (bus : Bus) (d : Dev) :
    ((tdc_quick_check_status bus d).1 = 0 ↔
      (bus (d.log ++ [Txn.read_n_bytes 2 0xB4]) % 2 ^ 16).testBit 9 = true) ∧
    ((tdc_quick_check_status bus d).1 = 1 ↔
      (bus (d.log ++ [Txn.read_n_bytes 2 0xB4]) % 2 ^ 16).testBit 9 = false) ∧
    (∀ (bus2 : Bus) (d2 : Dev),
      (bus2 (d2.log ++ [Txn.read_n_bytes 2 0xB4]) % 2 ^ 16).testBit 9 =
        (bus (d.log ++ [Txn.read_n_bytes 2 0xB4]) % 2 ^ 16).testBit 9 →
      (tdc_quick_check_status bus2 d2).1 = (tdc_quick_check_status bus d).1) ∧
    (tdc_quick_check_status bus d).2 =
      { d with log := d.log ++ [Txn.read_n_bytes 2 0xB4] } ∧
    ((tdc_quick_check_status bus d).2.log.drop d.log.length).filter is_write = [] := by
  have key : ∀ (b : Bus) (e : Dev),
      (tdc_quick_check_status b e).1 =
        if (b (e.log ++ [Txn.read_n_bytes 2 0xB4]) % 2 ^ 16).testBit 9 = true then 0 else 1 := by
    intro b e
    rw [quick_check_eq, Nat.testBit_mod_two_pow]
    simp
  refine ⟨?_, ?_, ?_, ?_, ?_⟩
  · rw [key]
    generalize (bus (d.log ++ [Txn.read_n_bytes 2 0xB4]) % 2 ^ 16).testBit 9 = b
    cases b <;> simp
  · rw [key]
    generalize (bus (d.log ++ [Txn.read_n_bytes 2 0xB4]) % 2 ^ 16).testBit 9 = b
    cases b <;> simp
  · intro bus2 d2 h
    rw [key, key, h]
  · rw [quick_check_eq]
  · rw [quick_check_eq]
    simp [is_write]

/-! ## Self-test -/

theorem tdc_test_eq (flag : Nat) (bus : Bus) (d : Dev) :
    tdc_test flag bus d =
      if (tdc_read_n_bytes bus 1 0xB5 d).1 = 0x55 then
        { d with log := d.log ++ [Txn.read_n_bytes 1 0xB5] }
      else
        { d with log := d.log ++ [Txn.read_n_bytes 1 0xB5],
                 device_state_mask := (d.device_state_mask ||| flag) % 2 ^ 16 } := by
  have ho : OPCODE_READ_REG + 5 = 0xB5 := by decide
  unfold tdc_test
  simp only [ho, tdc_read_n_bytes, Nat.mod_mod]
  split_ifs <;> simp_all

/-- C6. Self-test outcome: with prior mask `m` and `v` the value the 1-byte
read of register 5 (opcode 0xB5) returns, after `tdc_test` the mask is `m`
when `v = 0x55` and `m OR TDC_STATE_INIT_FAIL_FLAG` otherwise; the call makes
that one read and no write, and touches nothing else; a second run after a
mismatching one leaves the mask as the first run left it, and a mismatching
second run always ends in `m OR TDC_STATE_INIT_FAIL_FLAG`. -/
theorem self_test_outcome (flag : Nat) (bus : Bus) (d : Dev) (m v : Nat)
    (hm : d.device_state_mask = m) (hm16 : m < 2 ^ 16) (hflag : flag < 2 ^ 16)
    (hv : (tdc_read_n_bytes bus 1 0xB5 d).1 = v) :
    (v = 0x55 → (tdc_test flag bus d).device_state_mask = m) ∧
    (v ≠ 0x55 → (tdc_test flag bus d).device_state_mask = m ||| flag) ∧
    (tdc_test flag bus d).log = d.log ++ [Txn.read_n_bytes 1 0xB5] ∧
    (tdc_test flag bus d).tmp_res0 = d.tmp_res0 ∧
    (tdc_test flag bus d).tmp_res1 = d.tmp_res1 ∧
    (tdc_test flag bus d).tdc_debug_status = d.tdc_debug_status ∧
    (v ≠ 0x55 → ∀ bus2 : Bus,
      (tdc_test flag bus2 (tdc_test flag bus d)).device_state_mask =
        (tdc_test flag bus d).device_state_mask) ∧
    (∀ bus2 : Bus, (tdc_read_n_bytes bus2 1 0xB5 (tdc_test flag bus d)).1 ≠ 0x55 →
      (tdc_test flag bus2 (tdc_test flag bus d)).device_state_mask = m ||| flag) := by
  subst hm hv
  have hor : d.device_state_mask ||| flag < 2 ^ 16 := Nat.or_lt_two_pow hm16 hflag
  have hmod : (d.device_state_mask ||| flag) % 2 ^ 16 = d.device_state_mask ||| flag :=
    Nat.mod_eq_of_lt hor
  have hidem : (d.device_state_mask ||| flag) ||| flag = d.device_state_mask ||| flag := by
    rw [Nat.or_assoc, Nat.or_self]
  have hfirst : (tdc_read_n_bytes bus 1 0xB5 d).1 ≠ 0x55 →
      (tdc_test flag bus d).device_state_mask = d.device_state_mask ||| flag := by
    intro h
    rw [tdc_test_eq, if_neg h, hmod]
  refine ⟨?_, hfirst, ?_, ?_, ?_, ?_, ?_, ?_⟩
  · intro h
    rw [tdc_test_eq, if_pos h]
  · rw [tdc_test_eq]; split_ifs <;> rfl
  · rw [tdc_test_eq]; split_ifs <;> rfl
  · rw [tdc_test_eq]; split_ifs <;> rfl
  · rw [tdc_test_eq]; split_ifs <;> rfl
  · intro h bus2
    rw [tdc_test_eq flag bus2]
    split_ifs with h2
    · rfl
    · show ((tdc_test flag bus d).device_state_mask ||| flag) % 2 ^ 16 = _
      rw [hfirst h, hidem, hmod]
  · intro bus2 h2
    rw [tdc_test_eq flag bus2, if_neg h2]
    show ((tdc_test flag bus d).device_state_mask ||| flag) % 2 ^ 16 = _
    by_cases h : (tdc_read_n_bytes bus 1 0xB5 d).1 = 0x55
    · have : (tdc_test flag bus d).device_state_mask = d.device_state_mask := by
        rw [tdc_test_eq, if_pos h]
      rw [this, hmod]
    · rw [hfirst h, hidem, hmod]

/-- Witness for C6: at power-up with flag bit 0, a read of 0x19 sets the
flag and a read of 0x55 leaves the mask alone. -/
theorem self_test_outcome_witness :
    (power_up.device_state_mask = 0 ∧ (0 : Nat) < 2 ^ 16 ∧ (1 : Nat) < 2 ^ 16) ∧
    ((tdc_read_n_bytes (table_bus [0x19]) 1 0xB5 power_up).1 = 0x19 ∧
      (tdc_test 1 (table_bus [0x19]) power_up).device_state_mask = 0 ||| 1) ∧
    ((tdc_read_n_bytes (table_bus [0x55]) 1 0xB5 power_up).1 = 0x55 ∧
      (tdc_test 1 (table_bus [0x55]) power_up).device_state_mask = 0) :=
  ⟨⟨rfl, by decide, by decide⟩,
    ⟨by decide,
      (self_test_outcome 1 (table_bus [0x19]) power_up 0 0x19 rfl (by decide) (by decide)
        (by decide)).2.1 (by decide)⟩,
    ⟨by decide,
      (self_test_outcome 1 (table_bus [0x55]) power_up 0 0x55 rfl (by decide) (by decide)
        (by decide)).1 rfl⟩⟩

theorem configure_eq (d : Dev) :
    tdc_configure d =
      { d with log := d.log ++ [Txn.write_register 0x80 reg0_word,
                                Txn.write_register 0x81 reg1_start_word,
                                Txn.write_register 0x82 reg2_word,
                                Txn.write_register 0x83 reg3_word,
                                Txn.write_register 0x85 reg5_word,
                                Txn.write_register 0x86 reg6_word] } := by
  simp [tdc_configure, configure_reg1_start, tdc_write_register, OPCODE_WRITE_REG]

theorem reg0_word_eq : reg0_word = 0x17141000 := by decide

theorem reg2_word_eq : reg2_word = 0xB0000000 := by decide

theorem reg3_word_eq : reg3_word = 0x20000000 := by decide

theorem reg5_word_eq : reg5_word = 0x48000000 := by decide

theorem reg6_word_eq : reg6_word = 0x00004000 := by decide

theorem last_written_configure (d : Dev) :
    last_written 0x85 (tdc_configure d).log = some reg5_word := by
  rw [configure_eq]
  simp [last_written, List.foldl_append]

theorem reg5_echo_bus_reads_back : reads_back_reg5 reg5_echo_bus := by
  intro log value h
  have hl : last_written 0x85 (log ++ [Txn.read_n_bytes 1 0xB5]) = last_written 0x85 log := by
    simp [last_written, List.foldl_append]
  simp only [reg5_echo_bus, hl, h]

/-- C7, as the code has it. The word `tdc_configure` writes to register 5 is
0x48000000, whose upper 8 bits are 0x48, and no word `tdc_configure` writes
has 0x55 in its upper 8 bits; so on a bus whose 1-byte read of register 5
returns the top byte of the last word written to register 5, `tdc_configure`
followed by `tdc_test` sets the initialization-failure flag: the mask `m`
becomes `m OR TDC_STATE_INIT_FAIL_FLAG`. -/
theorem configure_then_test_sets_flag (flag : Nat) (bus : Bus) (d : Dev) (m : Nat)
    (hbus : reads_back_reg5 bus)
    (hm : d.device_state_mask = m) (hm16 : m < 2 ^ 16) (hflag : flag < 2 ^ 16) :
    reg5_word >>> 24 = 0x48 ∧
    (∀ t ∈ (tdc_configure d).log.drop d.log.length,
      ∀ op value, t = Txn.write_register op value → value >>> 24 ≠ 0x55) ∧
    (tdc_read_n_bytes bus 1 0xB5 (tdc_configure d)).1 = 0x48 ∧
    (tdc_test flag bus (tdc_configure d)).device_state_mask = m ||| flag := by
  subst hm
  have hread : (tdc_read_n_bytes bus 1 0xB5 (tdc_configure d)).1 = 0x48 := by
    show bus ((tdc_configure d).log ++ [Txn.read_n_bytes 1 0xB5]) % 2 ^ 32 = 0x48
    rw [hbus _ _ (last_written_configure d), reg5_word_eq]
    decide
  refine ⟨by rw [reg5_word_eq]; decide, ?_, hread, ?_⟩
  · rw [configure_eq]
    show ∀ t ∈ (d.log ++ _).drop d.log.length, _
    rw [List.drop_left, reg0_word_eq, reg1_start_word_eq, reg2_word_eq, reg3_word_eq,
      reg5_word_eq, reg6_word_eq]
    intro t ht op value hop
    subst hop
    simp only [List.mem_cons, Txn.write_register.injEq, List.mem_singleton, List.mem_nil_iff,
      or_false] at ht
    rcases ht with h | h | h | h | h | h <;> (rw [h.2]; decide)
  · rw [tdc_test_eq, if_neg (by rw [hread]; decide)]
    show ((tdc_configure d).device_state_mask ||| flag) % 2 ^ 16 = _
    rw [configure_eq]
    exact Nat.mod_eq_of_lt (Nat.or_lt_two_pow hm16 hflag)

/-- Witness for C7 as amended: at power-up with flag bit 0 on the echoing
bus, the mask goes from 0 to 1. -/
theorem configure_then_test_sets_flag_witness :
    reads_back_reg5 reg5_echo_bus ∧ power_up.device_state_mask = 0 ∧
    (tdc_test 1 reg5_echo_bus (tdc_configure power_up)).device_state_mask = 0 ||| 1 :=
  ⟨reg5_echo_bus_reads_back, rfl,
    (configure_then_test_sets_flag 1 reg5_echo_bus power_up 0 reg5_echo_bus_reads_back rfl
      (by decide) (by decide)).2.2.2⟩

/-- C7 as stated fails: the upper 8 bits of the word `tdc_configure` writes
to register 5 are not 0x55, and on a bus that reads back the top byte of the
last word written to register 5, `tdc_configure` then `tdc_test` from a clear
mask leaves the failure flag (here bit 0) set. -/
theorem configure_pattern_counterexample :
    reg5_word >>> 24 ≠ 0x55 ∧
    reads_back_reg5 reg5_echo_bus ∧
    power_up.device_state_mask = 0 ∧
    (tdc_test 1 reg5_echo_bus (tdc_configure power_up)).device_state_mask = 1 :=
  ⟨by decide, reg5_echo_bus_reads_back, rfl, by decide⟩

/-! ## Register words, field by field -/

/-- C8. Start-mode word: the word `configure_reg1_start` writes to register 1
reads back HIT1 (offset 24, 4 bits) = 9, HIT2 (offset 28, 4 bits) = 1,
HITIN1 (offset 16, 3 bits) = 1, HITIN2 (offset 19, 3 bits) = 2,
SEL_START_FIRE (bit 14) = 1, SEL_TSTO2 (offset 11, 3 bits) = 7, SEL_TSTO1
(offset 8, 3 bits) = 3; bits 0..7, 15, 22 and 23 are zero; the word is
0x19117B00. -/
theorem start_mode_word (d : Dev) :
    configure_reg1_start d =
      { d with log := d.log ++ [Txn.write_register 0x81 reg1_start_word] } ∧
    (REG1_HIT1 = 24 ∧ REG1_HIT2 = 28 ∧ REG1_HITIN1 = 16 ∧ REG1_HITIN2 = 19 ∧
      REG1_SEL_START_FIRE = 14 ∧ REG1_SEL_TSTO2 = 11 ∧ REG1_SEL_TSTO1 = 8) ∧
    (reg1_start_word >>> REG1_HIT1) % 2 ^ 4 = 9 ∧
    (reg1_start_word >>> REG1_HIT2) % 2 ^ 4 = 1 ∧
    (reg1_start_word >>> REG1_HITIN1) % 2 ^ 3 = 1 ∧
    (reg1_start_word >>> REG1_HITIN2) % 2 ^ 3 = 2 ∧
    (reg1_start_word >>> REG1_SEL_START_FIRE) % 2 ^ 1 = 1 ∧
    (reg1_start_word >>> REG1_SEL_TSTO2) % 2 ^ 3 = 7 ∧
    (reg1_start_word >>> REG1_SEL_TSTO1) % 2 ^ 3 = 3 ∧
    (∀ i ∈ [0, 1, 2, 3, 4, 5, 6, 7, 15, 22, 23], reg1_start_word.testBit i = false) ∧
    reg1_start_word = 0x19117B00 := by
  refine ⟨rfl, by decide, ?_, ?_, ?_, ?_, ?_, ?_, ?_, ?_, reg1_start_word_eq⟩
  all_goals rw [reg1_start_word_eq]; decide

/-- C9. Width-mode word: the word `configure_reg1_width` writes to register 1
has HIT1 (bits 24..27) = 0xA and HIT2 (bits 28..31) = 9; the width-mode HIT2
selector equals the start-mode HIT1 selector; the word is 0x9A117B00. -/
theorem width_mode_word (d : Dev) :
    configure_reg1_width d =
      { d with log := d.log ++ [Txn.write_register 0x81 reg1_width_word] } ∧
    (REG1_HIT1 = 24 ∧ REG1_HIT2 = 28) ∧
    (reg1_width_word >>> REG1_HIT1) % 2 ^ 4 = 0xA ∧
    (reg1_width_word >>> REG1_HIT2) % 2 ^ 4 = 9 ∧
    (reg1_width_word >>> REG1_HIT2) % 2 ^ 4 = (reg1_start_word >>> REG1_HIT1) % 2 ^ 4 ∧
    reg1_width_word = 0x9A117B00 := by
  refine ⟨rfl, by decide, ?_, ?_, ?_, reg1_width_word_eq⟩
  all_goals rw [reg1_width_word_eq]; decide

/-- C10. Static configuration: `tdc_configure` writes each of the registers
0, 2, 3, 5 and 6 exactly once, with opcode 0x80 + index and in increasing
index order, and never writes register 4.  The words are reg0 = 0x17141000
(ANZ_FIRE = 1, DIV_FIRE = 7, DIV_CLKHS = 1, START_CLKHS = 1, NO_CAL_AUTO = 1,
CALIBRATE = 0), reg2 = 0xB0000000 (EN_INT = 5, RFEDGE2 = 1, RFEDGE1 = 0),
reg3 = 0x20000000 (EN_ERR_VAL = 1), reg5 = 0x48000000 (CONF_FIRE = 2,
DIS_PHASESHIFT = 1, EN_STARTNOISE = 0) and reg6 = 0x00004000 (FIREO_DEF = 1,
EN_ANALOG = 0). -/
theorem static_configuration (d : Dev) :
    (tdc_configure d).log =
      d.log ++ [Txn.write_register 0x80 0x17141000,
                Txn.write_register 0x81 reg1_start_word,
                Txn.write_register 0x82 0xB0000000,
                Txn.write_register 0x83 0x20000000,
                Txn.write_register 0x85 0x48000000,
                Txn.write_register 0x86 0x00004000] ∧
    (∀ i ∈ [0, 2, 3, 5, 6],
      (write_opcodes ((tdc_configure d).log.drop d.log.length)).count (0x80 + i) = 1) ∧
    (write_opcodes ((tdc_configure d).log.drop d.log.length)).count (0x80 + 4) = 0 ∧
    (write_opcodes ((tdc_configure d).log.drop d.log.length)).filter (fun op => op ≠ 0x81) =
      [0x80 + 0, 0x80 + 2, 0x80 + 3, 0x80 + 5, 0x80 + 6] ∧
    (reg0_word = 0x17141000 ∧
      (reg0_word >>> REG0_ANZ_FIRE) % 2 ^ 4 = 1 ∧
      (reg0_word >>> REG0_DIV_FIRE) % 2 ^ 4 = 7 ∧
      (reg0_word >>> REG0_DIV_CLKHS) % 2 ^ 2 = 1 ∧
      (reg0_word >>> REG0_START_CLKHS_1_0) % 2 ^ 2 = 1 ∧
      (reg0_word >>> REG0_NO_CAL_AUTO) % 2 ^ 1 = 1 ∧
      reg0_word.testBit 13 = false ∧ REG0_CALIBRATE = 13) ∧
    (reg2_word = 0xB0000000 ∧
      (reg2_word >>> REG2_EN_INT_2_0) % 2 ^ 3 = 5 ∧
      (reg2_word >>> REG2_RFEDGE2) % 2 ^ 1 = 1 ∧
      (reg2_word >>> REG2_RFEDGE1) % 2 ^ 1 = 0) ∧
    (reg3_word = 0x20000000 ∧
      (reg3_word >>> REG3_EN_ERR_VAL) % 2 ^ 1 = 1) ∧
    (reg5_word = 0x48000000 ∧
      (reg5_word >>> REG5_CONF_FIRE) % 2 ^ 3 = 2 ∧
      (reg5_word >>> REG5_DIS_PHASESHIFT) % 2 ^ 1 = 1 ∧
      (reg5_word >>> REG5_EN_STARTNOISE) % 2 ^ 1 = 0) ∧
    (reg6_word = 0x00004000 ∧
      (reg6_word >>> REG6_FIREO_DEF) % 2 ^ 1 = 1 ∧
      (reg6_word >>> REG6_EN_ANALOG) % 2 ^ 1 = 0) := by
  have hlog : (tdc_configure d).log =
      d.log ++ [Txn.write_register 0x80 0x17141000,
                Txn.write_register 0x81 reg1_start_word,
                Txn.write_register 0x82 0xB0000000,
                Txn.write_register 0x83 0x20000000,
                Txn.write_register 0x85 0x48000000,
                Txn.write_register 0x86 0x00004000] := by
    rw [configure_eq, reg0_word_eq, reg2_word_eq, reg3_word_eq, reg5_word_eq, reg6_word_eq]
  rw [hlog, List.drop_left, reg0_word_eq, reg2_word_eq, reg3_word_eq, reg5_word_eq,
    reg6_word_eq]
  refine ⟨rfl, by decide, by decide, by decide, by decide, by decide, by decide, by decide,
    by decide⟩

/-! ## The shared device-state mask -/

theorem send_reset_eq (d : Dev) :
    tdc_send_reset d =
      { d with log := d.log ++ [Txn.send_opcode 0x50, Txn.delay_ms 100] } := by
  simp [tdc_send_reset, send_opcode_to_tdc, dwt_delay_ms, OPCODE_RESET]

theorem read_raw_eq (bus : Bus) (d : Dev) :
    tdc_read_raw_value bus d =
      (((bus (d.log ++ [Txn.read_n_bytes 4 0xB0]) % 2 ^ 32) >>> 16) % 2 ^ 16,
        { d with log := d.log ++ [Txn.read_n_bytes 4 0xB0] }) := by
  have ho : OPCODE_READ_REG + 0 = 0xB0 := by decide
  simp only [tdc_read_raw_value, tdc_read_n_bytes, ho, Nat.mod_mod]

theorem read_three_mask (bus : Bus) (d : Dev) :
    (tdc_read_three_registers bus d).2.device_state_mask = d.device_state_mask := by
  rw [read_three_eq]
  split_ifs <;> rfl

theorem step_mask (flag : Nat) (bus : Bus) (op : Op) (d : Dev) :
    ∃ b : Bool, (step flag bus op d).device_state_mask =
      if b = true then (d.device_state_mask ||| flag) % 2 ^ 16 else d.device_state_mask := by
  cases op
  case tdc_test =>
    by_cases h : (tdc_read_n_bytes bus 1 0xB5 d).1 = 0x55
    · exact ⟨false, by simp only [step]; rw [tdc_test_eq, if_pos h]; rfl⟩
    · exact ⟨true, by simp only [step]; rw [tdc_test_eq, if_neg h]; rfl⟩
  case tdc_configure => exact ⟨false, by simp only [step]; rw [configure_eq]; rfl⟩
  case tdc_send_reset => exact ⟨false, by simp only [step]; rw [send_reset_eq]; rfl⟩
  case tdc_quick_check_status => exact ⟨false, by simp only [step]; rw [quick_check_eq]; rfl⟩
  case tdc_start_pulse => exact ⟨false, by simp only [step]; rw [start_pulse_eq]; rfl⟩
  case tdc_read_raw_value => exact ⟨false, by simp only [step]; rw [read_raw_eq]; rfl⟩
  case tdc_read_three_registers =>
    exact ⟨false, by simp only [step]; rw [read_three_mask]; rfl⟩
  case configure_reg1_start => exact ⟨false, rfl⟩
  case configure_reg1_width => exact ⟨false, rfl⟩

theorem testBit_lt_of_lt {m i : Nat} (hm : m < 2 ^ 16) (h : m.testBit i = true) : i < 16 := by
  by_contra hge
  have hle : 2 ^ 16 ≤ 2 ^ i := Nat.pow_le_pow_right (by decide) (Nat.le_of_not_lt hge)
  have := Nat.testBit_lt_two_pow (Nat.lt_of_lt_of_le hm hle)
  rw [this] at h
  exact Bool.noConfusion h

theorem or_flag_testBit (m flag i : Nat) (hm : m < 2 ^ 16) :
    ((m ||| flag) % 2 ^ 16).testBit i =
      (m.testBit i || (decide (i < 16) && flag.testBit i)) := by
  rw [Nat.testBit_mod_two_pow, Nat.testBit_or]
  by_cases hi : i < 16
  · simp [hi]
  · have hf : m.testBit i = false := by
      cases h : m.testBit i
      · rfl
      · exact absurd (testBit_lt_of_lt hm h) hi
    simp [hi, hf]

theorem step_mask_lt (flag : Nat) (bus : Bus) (op : Op) (d : Dev)
    (hm : d.device_state_mask < 2 ^ 16) :
    (step flag bus op d).device_state_mask < 2 ^ 16 := by
  obtain ⟨b, hb⟩ := step_mask flag bus op d
  rw [hb]
  cases b
  · simpa using hm
  · simpa using Nat.mod_lt _ (by decide : 0 < 2 ^ 16)

theorem run_mask_lt (flag : Nat) (bus : Bus) (ops : List Op) :
    ∀ d : Dev, d.device_state_mask < 2 ^ 16 →
      (run flag bus ops d).device_state_mask < 2 ^ 16 := by
  induction ops with
  | nil => intro d hm; exact hm
  | cons op rest ih => intro d hm; exact ih _ (step_mask_lt flag bus op d hm)

theorem run_mask_bits (flag : Nat) (bus : Bus) (m : Nat) (ops : List Op) :
    ∀ d : Dev, d.device_state_mask < 2 ^ 16 →
      (∃ b : Bool, ∀ i, d.device_state_mask.testBit i =
        (m.testBit i || (b && (decide (i < 16) && flag.testBit i)))) →
      ∃ b : Bool, ∀ i, (run flag bus ops d).device_state_mask.testBit i =
        (m.testBit i || (b && (decide (i < 16) && flag.testBit i))) := by
  induction ops with
  | nil => intro d _ h; exact h
  | cons op rest ih =>
    intro d hd h
    apply ih _ (step_mask_lt flag bus op d hd)
    obtain ⟨b, hb⟩ := h
    obtain ⟨c, hc⟩ := step_mask flag bus op d
    rw [hc]
    cases c
    · exact ⟨b, by simpa using hb⟩
    · refine ⟨true, fun i => ?_⟩
      simp only [if_true]
      rw [or_flag_testBit _ _ _ hd, hb i]
      cases hmi : m.testBit i <;> cases b <;> cases decide (i < 16) <;>
        cases flag.testBit i <;> simp

theorem run_append (flag : Nat) (bus : Bus) (ops1 ops2 : List Op) :
    ∀ d : Dev, run flag bus (ops1 ++ ops2) d = run flag bus ops2 (run flag bus ops1 d) := by
  induction ops1 with
  | nil => intro d; rfl
  | cons op rest ih => intro d; exact ih _

/-- C11. Only the self-test writes the shared flag and nothing clears it:
`tdc_configure`, `tdc_send_reset`, `tdc_start_pulse`,
`tdc_read_three_registers`, `tdc_read_raw_value` and `tdc_quick_check_status`
leave `device_state_mask` unchanged, and `tdc_test` clears no bit of it; so
over any finite sequence of driver operations, once
`TDC_STATE_INIT_FAIL_FLAG` is set it stays set, and every bit outside the
flag keeps its initial value. -/
theorem mask_written_only_by_self_test (flag : Nat) (bus : Bus) (d : Dev)
    (hm : d.device_state_mask < 2 ^ 16) :
    ((tdc_configure d).device_state_mask = d.device_state_mask ∧
      (tdc_send_reset d).device_state_mask = d.device_state_mask ∧
      (tdc_start_pulse d).device_state_mask = d.device_state_mask ∧
      (tdc_read_three_registers bus d).2.device_state_mask = d.device_state_mask ∧
      (tdc_read_raw_value bus d).2.device_state_mask = d.device_state_mask ∧
      (tdc_quick_check_status bus d).2.device_state_mask = d.device_state_mask) ∧
    (∀ i, d.device_state_mask.testBit i = true →
      (tdc_test flag bus d).device_state_mask.testBit i = true) ∧
    (∀ ops1 ops2 : List Op,
      (run flag bus ops1 d).device_state_mask &&& flag = flag →
      (run flag bus (ops1 ++ ops2) d).device_state_mask &&& flag = flag) ∧
    (∀ (ops : List Op) (i : Nat), flag.testBit i = false →
      (run flag bus ops d).device_state_mask.testBit i = d.device_state_mask.testBit i) ∧
    (∀ (ops : List Op) (i : Nat), d.device_state_mask.testBit i = true →
      (run flag bus ops d).device_state_mask.testBit i = true) := by
  have hbits : ∀ (ops : List Op) (e : Dev), e.device_state_mask < 2 ^ 16 →
      ∃ b : Bool, ∀ i, (run flag bus ops e).device_state_mask.testBit i =
        (e.device_state_mask.testBit i || (b && (decide (i < 16) && flag.testBit i))) :=
    fun ops e he => run_mask_bits flag bus e.device_state_mask ops e he ⟨false, by simp⟩
  refine ⟨⟨?_, ?_, ?_, read_three_mask bus d, ?_, ?_⟩, ?_, ?_, ?_, ?_⟩
  · rw [configure_eq]
  · rw [send_reset_eq]
  · rw [start_pulse_eq]
  · rw [read_raw_eq]
  · rw [quick_check_eq]
  · intro i hi
    obtain ⟨b, hb⟩ := hbits [Op.tdc_test] d hm
    have := hb i
    simp only [run, step] at this
    rw [this, hi]
    rfl
  · intro ops1 ops2 hset
    rw [run_append]
    obtain ⟨b, hb⟩ := hbits ops2 (run flag bus ops1 d) (run_mask_lt flag bus ops1 d hm)
    apply Nat.eq_of_testBit_eq
    intro i
    have h1 : ((run flag bus ops1 d).device_state_mask &&& flag).testBit i = flag.testBit i := by
      rw [hset]
    rw [Nat.testBit_and] at h1 ⊢
    rw [hb i]
    revert h1
    cases (run flag bus ops1 d).device_state_mask.testBit i <;> cases b <;>
      cases decide (i < 16) <;> cases flag.testBit i <;> simp
  · intro ops i hf
    obtain ⟨b, hb⟩ := hbits ops d hm
    rw [hb i, hf]
    simp
  · intro ops i hi
    obtain ⟨b, hb⟩ := hbits ops d hm
    rw [hb i, hi]
    rfl

/-- Witness for C11: from power-up with flag bit 0, a failed self-test
followed by a whole cycle and a passing self-test keeps bit 0 set. -/
theorem mask_written_only_by_self_test_witness :
    power_up.device_state_mask < 2 ^ 16 ∧
    (run 1 (table_bus [0x19]) [Op.tdc_test] power_up).device_state_mask &&& 1 = 1 ∧
    (run 1 (table_bus [0x19])
      ([Op.tdc_test] ++ [Op.tdc_configure, Op.tdc_start_pulse, Op.tdc_read_three_registers])
      power_up).device_state_mask &&& 1 = 1 :=
  ⟨by decide, by decide,
    (mask_written_only_by_self_test 1 (table_bus [0x19]) power_up (by decide)).2.2.1
      [Op.tdc_test] [Op.tdc_configure, Op.tdc_start_pulse, Op.tdc_read_three_registers]
      (by decide)⟩

/-! ## What the returned point says and depends on -/

/-- C12. Sentinel ambiguity: there are two buses, one whose status has bit 9
set (a timeout, with raw reads that are not 0xFFFF) and one whose status has
bit 9 clear and whose two raw reads are 0xFFFF, on which
`tdc_read_three_registers` returns the same point (0xFFFF, 0xFFFF); the
point does not tell whether a timeout occurred. -/
theorem sentinel_ambiguity (d : Dev) :
    ∃ bus1 bus2 : Bus,
      ((bus1 (status_query d) % 2 ^ 16).testBit 9 = true ∧
        bus1 (res0_query d) ≠ 0xFFFF ∧ bus1 (res1_query d) ≠ 0xFFFF) ∧
      ((bus2 (status_query d) % 2 ^ 16).testBit 9 = false ∧
        bus2 (res0_query d) = 0xFFFF ∧ bus2 (res1_query d) = 0xFFFF) ∧
      (tdc_read_three_registers bus1 d).1 = { start_value := 0xFFFF, width_value := 0xFFFF } ∧
      (tdc_read_three_registers bus2 d).1 = { start_value := 0xFFFF, width_value := 0xFFFF } ∧
      (tdc_read_three_registers bus1 d).1 = (tdc_read_three_registers bus2 d).1 := by
  have ht : ∀ log : List Txn, timeout_bus log = 0x0200 := fun _ => rfl
  have hs : full_scale_bus (status_query d) = 0 := by
    simp [full_scale_bus, status_query]
  have h0 : full_scale_bus (res0_query d) = 0xFFFF := by
    simp [full_scale_bus, res0_query]
  have h1 : full_scale_bus (res1_query d) = 0xFFFF := by
    simp [full_scale_bus, res1_query]
  have hp1 : (tdc_read_three_registers timeout_bus d).1 =
      { start_value := 0xFFFF, width_value := 0xFFFF } := by
    rw [read_three_eq, if_pos (by rw [ht]; decide)]
  have hp2 : (tdc_read_three_registers full_scale_bus d).1 =
      { start_value := 0xFFFF, width_value := 0xFFFF } := by
    rw [read_three_eq, hs, if_neg (by decide), h0, h1]
    rfl
  refine ⟨timeout_bus, full_scale_bus,
    ⟨by rw [ht]; decide, by rw [ht]; decide, by rw [ht]; decide⟩, ⟨?_, h0, h1⟩,
    hp1, hp2, hp1.trans hp2.symm⟩
  rw [hs]
  decide

/-- C14. Statelessness across cycles: whatever `tmp_res0`, `tmp_res1` and
`tdc_debug_status` held before, on the same bus answers
`tdc_read_three_registers` returns the same point and makes the same calls;
the point is a function of the three bus reads of this call only, and on
return `tmp_res0` and `tmp_res1` equal the returned `start_value` and
`width_value`. -/
theorem read_three_stateless (bus : Bus) (d : Dev) (t0 t1 ts : Nat) :
    (tdc_read_three_registers bus
        { d with tmp_res0 := t0, tmp_res1 := t1, tdc_debug_status := ts }).1 =
      (tdc_read_three_registers bus d).1 ∧
    (tdc_read_three_registers bus
        { d with tmp_res0 := t0, tmp_res1 := t1, tdc_debug_status := ts }).2.log =
      (tdc_read_three_registers bus d).2.log ∧
    (∀ (bus2 : Bus) (d2 : Dev),
      bus2 (res0_query d2) = bus (res0_query d) →
      bus2 (res1_query d2) = bus (res1_query d) →
      bus2 (status_query d2) = bus (status_query d) →
      (tdc_read_three_registers bus2 d2).1 = (tdc_read_three_registers bus d).1 ∧
      (tdc_read_three_registers bus2 d2).2.log.drop d2.log.length =
        (tdc_read_three_registers bus d).2.log.drop d.log.length) ∧
    (tdc_read_three_registers bus d).1 =
      (if (bus (status_query d) % 2 ^ 16).testBit 9 = true then
        { start_value := 0xFFFF, width_value := 0xFFFF }
      else
        { start_value := bus (res0_query d) % 2 ^ 16,
          width_value := bus (res1_query d) % 2 ^ 16 }) ∧
    (tdc_read_three_registers bus d).2.tmp_res0 =
      (tdc_read_three_registers bus d).1.start_value ∧
    (tdc_read_three_registers bus d).2.tmp_res1 =
      (tdc_read_three_registers bus d).1.width_value := by
  have hbit : ∀ x : Nat, (x % 2 ^ 16).testBit 9 = x.testBit 9 := by
    intro x
    rw [Nat.testBit_mod_two_pow]
    simp
  have hdrop : ∀ (b : Bus) (e : Dev),
      (tdc_read_three_registers b e).2.log.drop e.log.length =
        [Txn.read_register_upper 0xB0, Txn.write_register 0x81 0x9A117B00,
          Txn.delay_us 5, Txn.read_register_upper 0xB1, Txn.read_n_bytes 2 0xB4] := by
    intro b e
    have : (tdc_read_three_registers b e).2.log = e.log ++
        [Txn.read_register_upper 0xB0, Txn.write_register 0x81 0x9A117B00,
          Txn.delay_us 5, Txn.read_register_upper 0xB1, Txn.read_n_bytes 2 0xB4] := by
      rw [read_three_eq]
      split_ifs <;> simp [status_query, res1_query, res0_query]
    rw [this, List.drop_left]
  have hq0 : res0_query { d with tmp_res0 := t0, tmp_res1 := t1, tdc_debug_status := ts } =
      res0_query d := rfl
  have hq1 : res1_query { d with tmp_res0 := t0, tmp_res1 := t1, tdc_debug_status := ts } =
      res1_query d := rfl
  have hqs : status_query { d with tmp_res0 := t0, tmp_res1 := t1, tdc_debug_status := ts } =
      status_query d := rfl
  refine ⟨?_, ?_, ?_, ?_, ?_, ?_⟩
  · rw [read_three_eq, read_three_eq, hq0, hq1, hqs]
    split_ifs <;> rfl
  · rw [read_three_eq, read_three_eq, hq0, hq1, hqs]
    split_ifs <;> rfl
  · intro bus2 d2 h0 h1 hs
    refine ⟨?_, ?_⟩
    · rw [read_three_eq, read_three_eq, h0, h1, hs]
      split_ifs <;> rfl
    · rw [hdrop, hdrop]
  · rw [read_three_eq, hbit]
    split_ifs <;> rfl
  · rw [read_three_eq]
    split_ifs <;> rfl
  · rw [read_three_eq]
    split_ifs <;> rfl

/-- C17. Upper half-word extraction: with `v` the 32-bit value the 4-byte
read of register 0 (opcode 0xB0) returns, `tdc_read_raw_value` returns
`v / 2^16`, that is bits 16..31 of `v`; the result is below 2^16, does not
depend on the low 16 bits of `v`, and `result * 2^16 + v mod 2^16 = v`. -/
theorem read_raw_upper_half (bus : Bus) (d : Dev) (v : Nat)
    (hv : (tdc_read_n_bytes bus 4 0xB0 d).1 = v) :
    v < 2 ^ 32 ∧
    (tdc_read_raw_value bus d).1 = v / 2 ^ 16 ∧
    (∀ i, (tdc_read_raw_value bus d).1.testBit i = (decide (i < 16) && v.testBit (16 + i))) ∧
    (tdc_read_raw_value bus d).1 < 2 ^ 16 ∧
    (∀ (bus2 : Bus) (d2 : Dev),
      (tdc_read_n_bytes bus2 4 0xB0 d2).1 / 2 ^ 16 = v / 2 ^ 16 →
      (tdc_read_raw_value bus2 d2).1 = (tdc_read_raw_value bus d).1) ∧
    (tdc_read_raw_value bus d).1 * 2 ^ 16 + v % 2 ^ 16 = v ∧
    (tdc_read_raw_value bus d).2 = { d with log := d.log ++ [Txn.read_n_bytes 4 0xB0] } := by
  have key : ∀ (b : Bus) (e : Dev),
      (tdc_read_raw_value b e).1 = (tdc_read_n_bytes b 4 0xB0 e).1 / 2 ^ 16 := by
    intro b e
    rw [read_raw_eq]
    show ((b (e.log ++ [Txn.read_n_bytes 4 0xB0]) % 2 ^ 32) >>> 16) % 2 ^ 16 =
      (b (e.log ++ [Txn.read_n_bytes 4 0xB0]) % 2 ^ 32) / 2 ^ 16
    rw [Nat.shiftRight_eq_div_pow]
    apply Nat.mod_eq_of_lt
    have := Nat.mod_lt (b (e.log ++ [Txn.read_n_bytes 4 0xB0])) (by decide : 0 < 2 ^ 32)
    omega
  have hlt : v < 2 ^ 32 := by
    rw [← hv]
    exact Nat.mod_lt _ (by decide)
  have hres : (tdc_read_raw_value bus d).1 = v / 2 ^ 16 := by rw [key, hv]
  refine ⟨hlt, hres, ?_, ?_, ?_, ?_, ?_⟩
  · intro i
    rw [hres, ← Nat.shiftRight_eq_div_pow, Nat.testBit_shiftRight]
    by_cases hi : i < 16
    · simp [hi]
    · have h32 : 2 ^ 32 ≤ 2 ^ (16 + i) := Nat.pow_le_pow_right (by decide) (by omega)
      rw [Nat.testBit_lt_two_pow (Nat.lt_of_lt_of_le hlt h32)]
      simp [hi]
  · rw [hres]; omega
  · intro bus2 d2 h
    rw [key, h, hres]
  · rw [hres]; omega
  · rw [read_raw_eq]

/-- Witness for C17: the 4-byte read returns 0x12345678 and the driver
returns 0x1234. -/
theorem read_raw_upper_half_witness :
    (tdc_read_n_bytes (table_bus [0x12345678]) 4 0xB0 power_up).1 = 0x12345678 ∧
    (tdc_read_raw_value (table_bus [0x12345678]) power_up).1 = 0x12345678 / 2 ^ 16 ∧
    (tdc_read_raw_value (table_bus [0x12345678]) power_up).1 = 0x1234 :=
  ⟨by decide,
    (read_raw_upper_half (table_bus [0x12345678]) power_up 0x12345678 (by decide)).2.1,
    by decide⟩

/-! ## What a sequence of operations puts on the bus -/

theorem fresh_of_not_mem (l : List Txn) (h : Txn.send_opcode 0x01 ∉ l) :
    fresh_triggers l := by
  intro pre post hl
  exact absurd (by rw [hl]; simp) h

theorem fresh_start_pulse :
    fresh_triggers
      [Txn.write_register 0x81 reg1_start_word, Txn.send_opcode 0x70, Txn.send_opcode 0x01] := by
  intro pre post hl
  match pre, hl with
  | [], hl => simp at hl
  | [_], hl => simp at hl
  | [a, b], hl =>
    simp only [List.cons_append, List.nil_append, List.cons.injEq] at hl
    obtain ⟨ha, hb, _⟩ := hl
    subst ha hb
    exact ⟨[Txn.write_register 0x81 reg1_start_word], rfl, rfl⟩
  | _ :: _ :: _ :: rest, hl =>
    simp only [List.cons_append, List.cons.injEq] at hl
    obtain ⟨_, _, _, hnil⟩ := hl
    cases rest <;> simp at hnil

theorem fresh_append (l1 l2 : List Txn) (h1 : fresh_triggers l1) (h2 : fresh_triggers l2) :
    fresh_triggers (l1 ++ l2) := by
  intro pre post hl
  rcases List.append_eq_append_iff.mp hl with ⟨a, hpre, htail⟩ | ⟨c, hsuf, hrest⟩
  · obtain ⟨before, hb, hw⟩ := h2 a post htail
    refine ⟨l1 ++ before, by rw [hpre, hb, List.append_assoc], ?_⟩
    rw [List.filter_append, List.getLast?_append, hw]
    rfl
  · cases c with
    | nil =>
      simp only [List.nil_append, List.append_nil] at hrest hsuf
      obtain ⟨before, hb, _⟩ := h2 [] post hrest.symm
      simp at hb
    | cons x rest =>
      simp only [List.cons_append, List.cons.injEq] at hrest
      obtain ⟨hx, _⟩ := hrest
      subst hx
      exact h1 pre rest hsuf

theorem step_log (flag : Nat) (bus : Bus) (op : Op) (d : Dev) :
    ∃ txns, (step flag bus op d).log = d.log ++ txns ∧ fresh_triggers txns ∧
      ∀ t ∈ txns, opcode_in_set t = true := by
  cases op
  case tdc_configure =>
    exact ⟨_, by simp only [step]; rw [configure_eq], fresh_of_not_mem _ (by simp),
      by simp [opcode_in_set, List.range, List.range.loop]⟩
  case tdc_send_reset =>
    exact ⟨_, by simp only [step]; rw [send_reset_eq], fresh_of_not_mem _ (by simp),
      by simp [opcode_in_set]⟩
  case tdc_quick_check_status =>
    exact ⟨_, by simp only [step]; rw [quick_check_eq], fresh_of_not_mem _ (by simp),
      by simp [opcode_in_set, List.range, List.range.loop]⟩
  case tdc_start_pulse =>
    exact ⟨_, by simp only [step]; rw [start_pulse_eq], fresh_start_pulse,
      by simp [opcode_in_set, List.range, List.range.loop]⟩
  case tdc_read_raw_value =>
    exact ⟨_, by simp only [step]; rw [read_raw_eq], fresh_of_not_mem _ (by simp),
      by simp [opcode_in_set, List.range, List.range.loop]⟩
  case tdc_read_three_registers =>
    refine ⟨[Txn.read_register_upper 0xB0, Txn.write_register 0x81 0x9A117B00,
      Txn.delay_us 5, Txn.read_register_upper 0xB1, Txn.read_n_bytes 2 0xB4], ?_,
      fresh_of_not_mem _ (by simp), by simp [opcode_in_set, List.range, List.range.loop]⟩
    simp only [step]
    rw [read_three_eq]
    split_ifs <;> simp [status_query, res1_query, res0_query]
  case configure_reg1_start =>
    exact ⟨[Txn.write_register 0x81 reg1_start_word], rfl, fresh_of_not_mem _ (by simp),
      by simp [opcode_in_set, List.range, List.range.loop]⟩
  case configure_reg1_width =>
    exact ⟨[Txn.write_register 0x81 reg1_width_word], rfl, fresh_of_not_mem _ (by simp),
      by simp [opcode_in_set, List.range, List.range.loop]⟩
  case tdc_test =>
    refine ⟨[Txn.read_n_bytes 1 0xB5], ?_, fresh_of_not_mem _ (by simp),
      by simp [opcode_in_set, List.range, List.range.loop]⟩
    simp only [step]
    rw [tdc_test_eq]
    split_ifs <;> rfl

theorem run_log (flag : Nat) (bus : Bus) (ops : List Op) :
    ∀ d : Dev, ∃ txns, (run flag bus ops d).log = d.log ++ txns ∧ fresh_triggers txns ∧
      ∀ t ∈ txns, opcode_in_set t = true := by
  induction ops with
  | nil =>
    intro d
    exact ⟨[], by simp [run], fresh_of_not_mem _ (by simp), by simp⟩
  | cons op rest ih =>
    intro d
    obtain ⟨t1, hl1, hf1, ho1⟩ := step_log flag bus op d
    obtain ⟨t2, hl2, hf2, ho2⟩ := ih (step flag bus op d)
    refine ⟨t1 ++ t2, ?_, fresh_append _ _ hf1 hf2, ?_⟩
    · show (run flag bus rest (step flag bus op d)).log = _
      rw [hl2, hl1, List.append_assoc]
    · intro t ht
      rcases List.mem_append.mp ht with h | h
      · exact ho1 t h
      · exact ho2 t h

theorem any_range_seven (op base : Nat)
    (h : (List.range 7).any (fun i => decide (op = base + i)) = true) :
    ∃ i, i ≤ 6 ∧ op = base + i := by
  rw [List.any_eq_true] at h
  obtain ⟨i, hi, he⟩ := h
  exact ⟨i, by have := List.mem_range.mp hi; omega, by simpa using he⟩

theorem opcode_in_set_spec (t : Txn) (h : opcode_in_set t = true) (op : Nat)
    (hop : opcode_of t = some op) :
    op < 256 ∧
    ((∃ c, t = Txn.send_opcode c ∧ (op = 0x70 ∨ op = 0x50 ∨ op = 0x01)) ∨
      (∃ i, i ≤ 6 ∧ op = 0x80 + i ∧ ∃ v, t = Txn.write_register op v) ∨
      (∃ i, i ≤ 6 ∧ op = 0xB0 + i ∧
        ((∃ n, t = Txn.read_n_bytes n op) ∨ t = Txn.read_register_upper op))) := by
  cases t with
  | send_opcode c =>
    simp only [opcode_of, Option.some.injEq] at hop
    subst hop
    simp only [opcode_in_set, Bool.or_eq_true, decide_eq_true_eq] at h
    refine ⟨by omega, Or.inl ⟨c, rfl, ?_⟩⟩
    rcases h with (h | h) | h
    · exact Or.inl h
    · exact Or.inr (Or.inl h)
    · exact Or.inr (Or.inr h)
  | write_register c v =>
    simp only [opcode_of, Option.some.injEq] at hop
    subst hop
    obtain ⟨i, hi, he⟩ := any_range_seven c 0x80 h
    exact ⟨by omega, Or.inr (Or.inl ⟨i, hi, he, v, rfl⟩)⟩
  | read_n_bytes n c =>
    simp only [opcode_of, Option.some.injEq] at hop
    subst hop
    obtain ⟨i, hi, he⟩ := any_range_seven c 0xB0 h
    exact ⟨by omega, Or.inr (Or.inr ⟨i, hi, he, Or.inl ⟨n, rfl⟩⟩)⟩
  | read_register_upper c =>
    simp only [opcode_of, Option.some.injEq] at hop
    subst hop
    obtain ⟨i, hi, he⟩ := any_range_seven c 0xB0 h
    exact ⟨by omega, Or.inr (Or.inr ⟨i, hi, he, Or.inr rfl⟩)⟩
  | delay_ms n => simp [opcode_of] at hop
  | delay_us n => simp [opcode_of] at hop

/-- C13. Every trigger is freshly initialised in start mode: over any finite
sequence of driver operations, on any bus, wherever the START opcode 0x01
appears among the calls made, the call immediately before it is the INIT
opcode 0x70 and the most recent register write before that is the write of
the start-mode word to register 1.  In particular, after
`tdc_read_three_registers` has left register 1 in width mode, the next
`tdc_start_pulse` rewrites the start-mode word before INIT and START. -/
theorem triggers_freshly_initialised (flag : Nat) (bus : Bus) (ops : List Op) (d : Dev) :
    (∃ txns, (run flag bus ops d).log = d.log ++ txns ∧
      ∀ pre post, txns = pre ++ Txn.send_opcode 0x01 :: post →
        ∃ before, pre = before ++ [Txn.send_opcode 0x70] ∧
          (before.filter is_write).getLast? =
            some (Txn.write_register 0x81 reg1_start_word)) ∧
    (OPCODE_START_TOF = 0x01 ∧ OPCODE_INIT = 0x70 ∧ OPCODE_WRITE_REG + 1 = 0x81) ∧
    (last_written 0x81 (tdc_read_three_registers bus d).2.log = some reg1_width_word ∧
      reg1_width_word ≠ reg1_start_word ∧
      (tdc_start_pulse (tdc_read_three_registers bus d).2).log =
        (tdc_read_three_registers bus d).2.log ++
          [Txn.write_register 0x81 reg1_start_word, Txn.send_opcode 0x70,
            Txn.send_opcode 0x01]) := by
  refine ⟨?_, by decide, ?_, by decide, ?_⟩
  · obtain ⟨txns, hl, hf, _⟩ := run_log flag bus ops d
    exact ⟨txns, hl, hf⟩
  · rw [read_three_eq, reg1_width_word_eq]
    split_ifs <;>
      simp [last_written, status_query, res1_query, res0_query, List.foldl_append]
  · rw [start_pulse_eq]

/-- C16. Opcode set: every opcode byte the driver passes to the bus, in any
sequence of operations, is INIT = 0x70, RESET = 0x50 or START_TOF = 0x01 in a
command, 0x80 + i in a register write, or 0xB0 + i in a read, with register
index i in 0..6; each fits in one byte; the write range, the read range and
the three commands are pairwise disjoint; `tdc_send_reset` sends exactly the
RESET opcode followed by a 100 ms delay. -/
theorem opcode_set (flag : Nat) (bus : Bus) (ops : List Op) (d : Dev) :
    (∃ txns, (run flag bus ops d).log = d.log ++ txns ∧
      ∀ t ∈ txns, ∀ op, opcode_of t = some op →
        op < 256 ∧
        ((∃ c, t = Txn.send_opcode c ∧ (op = 0x70 ∨ op = 0x50 ∨ op = 0x01)) ∨
          (∃ i, i ≤ 6 ∧ op = 0x80 + i ∧ ∃ v, t = Txn.write_register op v) ∨
          (∃ i, i ≤ 6 ∧ op = 0xB0 + i ∧
            ((∃ n, t = Txn.read_n_bytes n op) ∨ t = Txn.read_register_upper op)))) ∧
    (OPCODE_INIT = 0x70 ∧ OPCODE_RESET = 0x50 ∧ OPCODE_START_TOF = 0x01 ∧
      OPCODE_WRITE_REG = 0x80 ∧ OPCODE_READ_REG = 0xB0) ∧
    (OPCODE_INIT ≠ OPCODE_RESET ∧ OPCODE_INIT ≠ OPCODE_START_TOF ∧
      OPCODE_RESET ≠ OPCODE_START_TOF) ∧
    (∀ i j, i ≤ 6 → j ≤ 6 →
      OPCODE_WRITE_REG + i < 256 ∧ OPCODE_READ_REG + j < 256 ∧
      OPCODE_WRITE_REG + i ≠ OPCODE_READ_REG + j ∧
      OPCODE_WRITE_REG + i ≠ OPCODE_INIT ∧ OPCODE_WRITE_REG + i ≠ OPCODE_RESET ∧
      OPCODE_WRITE_REG + i ≠ OPCODE_START_TOF ∧
      OPCODE_READ_REG + j ≠ OPCODE_INIT ∧ OPCODE_READ_REG + j ≠ OPCODE_RESET ∧
      OPCODE_READ_REG + j ≠ OPCODE_START_TOF) ∧
    tdc_send_reset d =
      { d with log := d.log ++ [Txn.send_opcode OPCODE_RESET, Txn.delay_ms 100] } := by
  refine ⟨?_, by decide, by decide, ?_, send_reset_eq d⟩
  · obtain ⟨txns, hl, _, ho⟩ := run_log flag bus ops d
    exact ⟨txns, hl, fun t ht op hop => opcode_in_set_spec t (ho t ht) op hop⟩
  · intro i j hi hj
    simp only [OPCODE_WRITE_REG, OPCODE_READ_REG, OPCODE_INIT, OPCODE_RESET, OPCODE_START_TOF]
    omega

/-! ## Field tables -/

theorem register_words_built : ∀ p ∈ register_words, p.1 = build_word p.2 := by
  decide

/-- C15. Field well-formedness: in each register word the driver builds
(register 0, register 1 in start mode and in width mode, registers 2, 3, 5
and 6), every field value is below 2^width for the width declared for the
field, the bit ranges [offset, offset + width) of the fields of one word lie
inside bits 0..31 and are pairwise disjoint, and the word equals the sum of
value * 2^offset over its fields. -/
theorem fields_well_formed :
    register_words.map Prod.fst =
      [0x17141000, 0x19117B00, 0x9A117B00, 0xB0000000, 0x20000000, 0x48000000, 0x00004000] ∧
    (∀ p ∈ register_words,
      p.1 = build_word p.2 ∧
      (∀ f ∈ p.2, f.value < 2 ^ f.width ∧ f.offset + f.width ≤ 32) ∧
      p.2.Pairwise
        (fun f g => f.offset + f.width ≤ g.offset ∨ g.offset + g.width ≤ f.offset) ∧
      p.1 = (p.2.map (fun f => f.value * 2 ^ f.offset)).sum) := by
  refine ⟨by decide, ?_⟩
  decide

/-- C18. No signed overflow in the field shifts: every shift the driver
evaluates in `int` (no `uint32_t` cast, such as 7 << 24, 1 << 28, 1 << 29,
2 << 29) has the exact value constant * 2^offset below 2^31; every shift
whose exact value is 2^31 or more (9 << 28, 5 << 29) carries the cast and is
below 2^32; so each shift as C computes it is the exact product, and each
written word equals the OR of the exact products. -/
theorem shifts_do_not_overflow :
    (∀ p ∈ register_words,
      p.1 = build_word p.2 ∧
      (∀ f ∈ p.2,
        f.offset < 32 ∧
        (f.cast = false → f.value * 2 ^ f.offset < 2 ^ 31) ∧
        (2 ^ 31 ≤ f.value * 2 ^ f.offset → f.cast = true) ∧
        f.value * 2 ^ f.offset < 2 ^ 32 ∧
        f.shifted = f.value * 2 ^ f.offset) ∧
      p.1 = p.2.foldl (fun reg f => reg ||| f.value * 2 ^ f.offset) 0) ∧
    ({ cast := false, value := 7, offset := 24, width := 4 } ∈ reg0_fields ∧
      { cast := false, value := 1, offset := 28, width := 4 } ∈ reg1_start_fields ∧
      { cast := false, value := 1, offset := 29, width := 1 } ∈ reg3_fields ∧
      { cast := false, value := 2, offset := 29, width := 3 } ∈ reg5_fields) ∧
    ({ cast := true, value := 9, offset := 28, width := 4 } ∈ reg1_width_fields ∧
      { cast := true, value := 5, offset := 29, width := 3 } ∈ reg2_fields ∧
      2 ^ 31 ≤ 9 * 2 ^ 28 ∧ 2 ^ 31 ≤ 5 * 2 ^ 29 ∧
      shl_u32 9 28 = 9 * 2 ^ 28 ∧ shl_u32 5 29 = 5 * 2 ^ 29) := by
  refine ⟨?_, by decide, by decide⟩
  decide

end TDC
